import Mathlib

/-!
# Connectivity cache of `things/redis/channels.go`

A shallow embedding of the channel cache (`Connect`, `HasThing`, `Disconnect`,
`Remove`, `kv`) over a model of the key/value backend: a map from string keys
to sets of strings, reached through requests that can fail.
-/

namespace Redis

/-! ## Errors -/

/-- Modelled from the spec: the `pkg/errors` package is not among the sources.
An error is either created by `errors.New` with a message, or is the result of
`errors.Wrap wrapper err` for two non-nil errors, carrying the wrapper (which
names the failed operation) and the wrapped cause. -/
inductive Error where
  | New (msg : String) : Error
  | Wrap (wrapper : Error) (err : Error) : Error
  deriving DecidableEq

/-- The error that adding a connection to the cache failed. -/
def ErrRedisConnectChannel : Error := Error.New "failed to add connection to redis cache"

/-- The error that removing a connection from the cache failed. -/
def ErrRedisDisconnectChannel : Error := Error.New "failed to remove connection from redis cache"

/-- The error that removing a channel from the cache failed. -/
def ErrRedisRemoveChannel : Error := Error.New "failed to remove channel from redis cache"

/-! ## Context -/

/-- What an operation could observe of a `context.Context`: its `Err()` is nil
while the context is live, and `Canceled` or `DeadlineExceeded` afterwards. -/
inductive Context where
  | background : Context
  | canceled : Context
  | deadlineExceeded : Context
  deriving DecidableEq

/-! ## The key/value backend -/

/-- The data held by the backend: every key maps to a set of strings. A key
that holds no set maps to the empty set (the backend drops a set when its last
member is removed, and a lookup cannot tell the two apart). -/
abbrev Store := String → Finset String

/-- The store in which no key holds a member. -/
def Store.empty : Store := fun _ => ∅

/-- How one request to the backend goes: it is executed and answered, it is
never executed (connection refused, pool closed), or it is executed and the
reply does not come back (read timeout). The last two give the caller an
error. -/
inductive Outcome where
  | ok : Outcome
  | refused (err : Error) : Outcome
  | replyLost (err : Error) : Outcome
  deriving DecidableEq

/-- The error the client reports for a request, nil when it was answered. -/
def Outcome.err : Outcome → Option Error
  | Outcome.ok => none
  | Outcome.refused e => some e
  | Outcome.replyLost e => some e

/-- Whether the server executed the command of the request. -/
def Outcome.executed : Outcome → Bool
  | Outcome.ok => true
  | Outcome.refused _ => false
  | Outcome.replyLost _ => true

/-- The result of an integer command: `Val()` and `Err()`. The value is the
zero value when the command failed. -/
structure IntCmd where
  val : Int
  err : Option Error
  deriving DecidableEq

/-- The result of a boolean command: `Val()` and `Err()`. The value is the
zero value `false` when the command failed. -/
structure BoolCmd where
  val : Bool
  err : Option Error
  deriving DecidableEq

/-- Getter `Err()` of an integer command. -/
def IntCmd.Err (cmd : IntCmd) : Option Error := cmd.err

/-- Getter `Val()` of a boolean command. -/
def BoolCmd.Val (cmd : BoolCmd) : Bool := cmd.val

/-- The store after `SADD key member`. -/
def Store.sadd (s : Store) (key member : String) : Store :=
  fun k => if k = key then insert member (s k) else s k

/-- The store after `SREM key member`. -/
def Store.srem (s : Store) (key member : String) : Store :=
  fun k => if k = key then (s k).erase member else s k

/-- The store after `DEL key`. -/
def Store.del (s : Store) (key : String) : Store :=
  fun k => if k = key then ∅ else s k

/-- Client call `SAdd(key, member)`: adds the member to the set at the key and
answers how many members were new. -/
def SAdd (s : Store) (net : Outcome) (key member : String) : Store × IntCmd :=
  (if net.executed then s.sadd key member else s,
   match net.err with
   | none => { val := if member ∈ s key then 0 else 1, err := none }
   | some e => { val := 0, err := some e })

/-- Client call `SIsMember(key, member)`: answers whether the member is in the
set at the key. The store is not changed. -/
def SIsMember (s : Store) (net : Outcome) (key member : String) : BoolCmd :=
  match net.err with
  | none => { val := decide (member ∈ s key), err := none }
  | some e => { val := false, err := some e }

/-- Client call `SRem(key, member)`: removes the member from the set at the
key and answers how many members were removed. -/
def SRem (s : Store) (net : Outcome) (key member : String) : Store × IntCmd :=
  (if net.executed then s.srem key member else s,
   match net.err with
   | none => { val := if member ∈ s key then 1 else 0, err := none }
   | some e => { val := 0, err := some e })

/-- Client call `Del(key)`: removes the key with its whole set and answers how
many keys were removed. -/
def Del (s : Store) (net : Outcome) (key : String) : Store × IntCmd :=
  (if net.executed then s.del key else s,
   match net.err with
   | none => { val := if s key = ∅ then 0 else 1, err := none }
   | some e => { val := 0, err := some e })

/-! ## The channel cache

The receiver `cc` of each method holds the client `cc.client`; here the
client is the store `s` it talks to together with the outcome `net` of the one
request the method sends, and a method that changes the store returns the new
store next to its error.
-/

/-- Prefix of every key of the cache. -/
def chanPrefix : String := "channel"

/-- Generates the key-value pair: `fmt.Sprintf("%s:%s", chanPrefix, chanID)`
with the thing ID. -/
def kv (chanID thingID : String) : String × String :=
  let cid := chanPrefix ++ ":" ++ chanID
  (cid, thingID)

/-- Adds the thing to the set of the channel. Returns the store after the call
and the error. -/
def Connect (_ : Context) (s : Store) (net : Outcome) (chanID thingID : String) :
    Store × Option Error :=
  let (cid, tid) := kv chanID thingID
  let (s', cmd) := SAdd s net cid tid
  match cmd.Err with
  | some err => (s', some (Error.Wrap ErrRedisConnectChannel err))
  | none => (s', none)

/-- Tells whether the thing is in the set of the channel. -/
def HasThing (_ : Context) (s : Store) (net : Outcome) (chanID thingID : String) : Bool :=
  let (cid, tid) := kv chanID thingID
  (SIsMember s net cid tid).Val

/-- Removes the thing from the set of the channel. Returns the store after the
call and the error. -/
def Disconnect (_ : Context) (s : Store) (net : Outcome) (chanID thingID : String) :
    Store × Option Error :=
  let (cid, tid) := kv chanID thingID
  let (s', cmd) := SRem s net cid tid
  match cmd.Err with
  | some err => (s', some (Error.Wrap ErrRedisDisconnectChannel err))
  | none => (s', none)

/-- Removes the whole set of the channel. Returns the store after the call and
the error. -/
def Remove (_ : Context) (s : Store) (net : Outcome) (chanID : String) :
    Store × Option Error :=
  let (cid, _) := kv chanID "0"
  let (s', cmd) := Del s net cid
  match cmd.Err with
  | some err => (s', some (Error.Wrap ErrRedisRemoveChannel err))
  | none => (s', none)

/-! ## Stores used in the scenarios -/

/-- The store of the scenarios after `dev-A` was connected to `chan-1`. -/
def storeA : Store :=
  (Connect Context.background Store.empty Outcome.ok "chan-1" "dev-A").1

/-- The store of the scenarios after `dev-A` and `dev-B` were connected to
`chan-1`. -/
def storeAB : Store :=
  (Connect Context.background storeA Outcome.ok "chan-1" "dev-B").1

/-- An error of the transport, as the client reports it for an unreachable
backend. -/
def errUnreachable : Error := Error.New "dial tcp: connection refused"

/-! ## Key derivation -/

theorem kv_fst (chanID thingID : String) : (kv chanID thingID).1 = "channel:" ++ chanID := by
  apply String.ext
  simp [kv, chanPrefix, String.data_append]

theorem kv_snd (chanID thingID : String) : (kv chanID thingID).2 = thingID := rfl

theorem kv_key_inj {c1 c2 t1 t2 : String} (h : (kv c1 t1).1 = (kv c2 t2).1) : c1 = c2 := by
  rw [kv_fst, kv_fst] at h
  have hd := congrArg String.data h
  simp only [String.data_append] at hd
  exact String.ext (List.append_cancel_left hd)

theorem kv_key_ne {c1 c2 : String} (t1 t2 : String) (h : c1 ≠ c2) :
    (kv c1 t1).1 ≠ (kv c2 t2).1 :=
  fun hk => h (kv_key_inj hk)

/-! ## Requests that return no error were executed and answered -/

theorem Outcome.eq_ok_of_err {net : Outcome} (h : net.err = none) : net = Outcome.ok := by
  cases net <;> simp [Outcome.err] at h ⊢

theorem Connect_snd (ctx : Context) (s : Store) (net : Outcome) (c t : String) :
    (Connect ctx s net c t).2 = net.err.map (Error.Wrap ErrRedisConnectChannel) := by
  cases net <;> rfl

theorem Disconnect_snd (ctx : Context) (s : Store) (net : Outcome) (c t : String) :
    (Disconnect ctx s net c t).2 = net.err.map (Error.Wrap ErrRedisDisconnectChannel) := by
  cases net <;> rfl

theorem Remove_snd (ctx : Context) (s : Store) (net : Outcome) (c : String) :
    (Remove ctx s net c).2 = net.err.map (Error.Wrap ErrRedisRemoveChannel) := by
  cases net <;> rfl

theorem Connect_fst (ctx : Context) (s : Store) (net : Outcome) (c t : String) :
    (Connect ctx s net c t).1 = if net.executed then s.sadd (kv c t).1 (kv c t).2 else s := by
  cases net <;> rfl

theorem Disconnect_fst (ctx : Context) (s : Store) (net : Outcome) (c t : String) :
    (Disconnect ctx s net c t).1 = if net.executed then s.srem (kv c t).1 (kv c t).2 else s := by
  cases net <;> rfl

theorem Remove_fst (ctx : Context) (s : Store) (net : Outcome) (c : String) :
    (Remove ctx s net c).1 = if net.executed then s.del (kv c "0").1 else s := by
  cases net <;> rfl

theorem HasThing_eq (ctx : Context) (s : Store) (net : Outcome) (c t : String) :
    HasThing ctx s net c t =
      (match net.err with
       | none => decide ((kv c t).2 ∈ s (kv c t).1)
       | some _ => false) := by
  cases net <;> rfl

theorem HasThing_ok (ctx : Context) (s : Store) (c t : String) :
    HasThing ctx s Outcome.ok c t = decide (t ∈ s (kv c t).1) := rfl

theorem HasThing_false_of_not_mem (ctx : Context) (s : Store) (net : Outcome) (c t : String)
    (h : t ∉ s (kv c t).1) : HasThing ctx s net c t = false := by
  rw [HasThing_eq]
  cases net <;> simp [Outcome.err, kv_snd, h]

theorem Connect_ok_of_no_error {ctx : Context} {s : Store} {net : Outcome} {c t : String}
    (h : (Connect ctx s net c t).2 = none) : net = Outcome.ok := by
  rw [Connect_snd] at h
  exact Outcome.eq_ok_of_err (by simpa using h)

theorem Disconnect_ok_of_no_error {ctx : Context} {s : Store} {net : Outcome} {c t : String}
    (h : (Disconnect ctx s net c t).2 = none) : net = Outcome.ok := by
  rw [Disconnect_snd] at h
  exact Outcome.eq_ok_of_err (by simpa using h)

theorem Remove_ok_of_no_error {ctx : Context} {s : Store} {net : Outcome} {c : String}
    (h : (Remove ctx s net c).2 = none) : net = Outcome.ok := by
  rw [Remove_snd] at h
  exact Outcome.eq_ok_of_err (by simpa using h)

/-! ## Connect, Disconnect and Remove against HasThing -/

/-- C1: if `Connect c t` returns no error, then `HasThing c t`, evaluated on
the resulting store through a reachable backend, returns true. -/
theorem connect_then_hasThing (ctx ctx' : Context) (s : Store) (net : Outcome) (c t : String)
    (h : (Connect ctx s net c t).2 = none) :
    HasThing ctx' (Connect ctx s net c t).1 Outcome.ok c t = true := by
  have hnet := Connect_ok_of_no_error h
  subst hnet
  rw [HasThing_ok, Connect_fst]
  simp [Outcome.executed, Store.sadd, kv_snd]

theorem connect_then_hasThing_witness :
    (Connect Context.background Store.empty Outcome.ok "chan-1" "dev-A").2 = none ∧
    HasThing Context.background
      (Connect Context.background Store.empty Outcome.ok "chan-1" "dev-A").1
      Outcome.ok "chan-1" "dev-A" = true :=
  ⟨by decide, connect_then_hasThing _ _ _ _ _ _ (by decide)⟩

/-- C2: if `Disconnect c t` returns no error, then `HasThing c t` on the
resulting store returns false, whether or not `t` was a member before. -/
theorem disconnect_then_not_hasThing (ctx ctx' : Context) (s : Store) (net net' : Outcome)
    (c t : String) (h : (Disconnect ctx s net c t).2 = none) :
    HasThing ctx' (Disconnect ctx s net c t).1 net' c t = false := by
  have hnet := Disconnect_ok_of_no_error h
  subst hnet
  apply HasThing_false_of_not_mem
  rw [Disconnect_fst]
  simp [Outcome.executed, Store.srem, kv_snd]

theorem disconnect_then_not_hasThing_witness :
    (HasThing Context.background storeA Outcome.ok "chan-1" "dev-A" = true ∧
      HasThing Context.background
        (Disconnect Context.background storeA Outcome.ok "chan-1" "dev-A").1
        Outcome.ok "chan-1" "dev-A" = false) ∧
    (HasThing Context.background Store.empty Outcome.ok "chan-1" "dev-A" = false ∧
      HasThing Context.background
        (Disconnect Context.background Store.empty Outcome.ok "chan-1" "dev-A").1
        Outcome.ok "chan-1" "dev-A" = false) :=
  ⟨⟨by decide, disconnect_then_not_hasThing _ _ storeA _ _ _ _ (by decide)⟩,
   ⟨by decide, disconnect_then_not_hasThing _ _ Store.empty _ _ _ _ (by decide)⟩⟩

/-- C3: after `Remove c` returns no error, `HasThing c t` returns false for
every thing `t`, and the key that `Remove` deletes (derived with the
placeholder thing `"0"`) is the key `Connect` and `HasThing` use for `c`. -/
theorem remove_then_not_hasThing (ctx ctx' : Context) (s : Store) (net net' : Outcome)
    (c t : String) (h : (Remove ctx s net c).2 = none) :
    HasThing ctx' (Remove ctx s net c).1 net' c t = false ∧
    (kv c "0").1 = (kv c t).1 := by
  have hnet := Remove_ok_of_no_error h
  subst hnet
  refine ⟨?_, rfl⟩
  apply HasThing_false_of_not_mem
  rw [Remove_fst]
  have hk : (kv c t).1 = (kv c "0").1 := rfl
  simp [Outcome.executed, Store.del, hk]

theorem remove_then_not_hasThing_witness :
    (HasThing Context.background storeAB Outcome.ok "chan-1" "dev-A" = true ∧
      HasThing Context.background storeAB Outcome.ok "chan-1" "dev-B" = true) ∧
    (HasThing Context.background
        (Remove Context.background storeAB Outcome.ok "chan-1").1
        Outcome.ok "chan-1" "dev-A" = false ∧
      HasThing Context.background
        (Remove Context.background storeAB Outcome.ok "chan-1").1
        Outcome.ok "chan-1" "dev-B" = false) :=
  ⟨⟨by decide, by decide⟩,
   ⟨(remove_then_not_hasThing _ _ storeAB _ _ _ "dev-A" (by decide)).1,
    (remove_then_not_hasThing _ _ storeAB _ _ _ "dev-B" (by decide)).1⟩⟩

/-! ## Idempotence and frame properties -/

theorem Store.sadd_sadd (s : Store) (key member : String) :
    (s.sadd key member).sadd key member = s.sadd key member := by
  funext k
  by_cases hk : k = key <;> simp [Store.sadd, hk]

theorem Store.srem_srem (s : Store) (key member : String) :
    (s.srem key member).srem key member = s.srem key member := by
  funext k
  by_cases hk : k = key <;> simp [Store.srem, hk]

/-- C4: `Connect` and `Disconnect` are idempotent on the store: after two
calls of `Connect c t` that return no error the store is the one after the
first call, likewise for `Disconnect c t`, so `HasThing` answers the same for
every pair of IDs. -/
theorem connect_disconnect_idempotent (ctx1 ctx2 ctx3 ctx4 : Context) (s : Store)
    (net1 net2 net3 net4 : Outcome) (c t : String)
    (h1 : (Connect ctx1 s net1 c t).2 = none)
    (h2 : (Connect ctx2 (Connect ctx1 s net1 c t).1 net2 c t).2 = none)
    (h3 : (Disconnect ctx3 s net3 c t).2 = none)
    (h4 : (Disconnect ctx4 (Disconnect ctx3 s net3 c t).1 net4 c t).2 = none) :
    ((Connect ctx2 (Connect ctx1 s net1 c t).1 net2 c t).1 = (Connect ctx1 s net1 c t).1 ∧
      ∀ (ctx : Context) (net : Outcome) (c' t' : String),
        HasThing ctx (Connect ctx2 (Connect ctx1 s net1 c t).1 net2 c t).1 net c' t' =
          HasThing ctx (Connect ctx1 s net1 c t).1 net c' t') ∧
    ((Disconnect ctx4 (Disconnect ctx3 s net3 c t).1 net4 c t).1 =
        (Disconnect ctx3 s net3 c t).1 ∧
      ∀ (ctx : Context) (net : Outcome) (c' t' : String),
        HasThing ctx (Disconnect ctx4 (Disconnect ctx3 s net3 c t).1 net4 c t).1 net c' t' =
          HasThing ctx (Disconnect ctx3 s net3 c t).1 net c' t') := by
  have e2 := Connect_ok_of_no_error h2
  have e4 := Disconnect_ok_of_no_error h4
  have e1 := Connect_ok_of_no_error h1
  have e3 := Disconnect_ok_of_no_error h3
  subst e1 e2 e3 e4
  have hc : (Connect ctx2 (Connect ctx1 s Outcome.ok c t).1 Outcome.ok c t).1 =
      (Connect ctx1 s Outcome.ok c t).1 := by
    simp only [Connect_fst, Outcome.executed, if_true]
    exact Store.sadd_sadd s _ _
  have hd : (Disconnect ctx4 (Disconnect ctx3 s Outcome.ok c t).1 Outcome.ok c t).1 =
      (Disconnect ctx3 s Outcome.ok c t).1 := by
    simp only [Disconnect_fst, Outcome.executed, if_true]
    exact Store.srem_srem s _ _
  refine ⟨⟨hc, ?_⟩, ⟨hd, ?_⟩⟩
  · intro ctx net c' t'
    rw [hc]
  · intro ctx net c' t'
    rw [hd]

theorem connect_disconnect_idempotent_witness :
    (Connect Context.background
        (Connect Context.background Store.empty Outcome.ok "chan-1" "dev-A").1
        Outcome.ok "chan-1" "dev-A").1 =
      (Connect Context.background Store.empty Outcome.ok "chan-1" "dev-A").1 ∧
    (Disconnect Context.background
        (Disconnect Context.background Store.empty Outcome.ok "chan-1" "dev-A").1
        Outcome.ok "chan-1" "dev-A").1 =
      (Disconnect Context.background Store.empty Outcome.ok "chan-1" "dev-A").1 :=
  have h := connect_disconnect_idempotent Context.background Context.background
    Context.background Context.background Store.empty Outcome.ok Outcome.ok Outcome.ok
    Outcome.ok "chan-1" "dev-A" (by decide) (by decide) (by decide) (by decide)
  ⟨h.1.1, h.2.1⟩

/-- C5: isolation across channels: for `c1 ≠ c2`, `HasThing c2 t'` returns the
same value after `Connect c1 t` as before it, and the keys derived for `c1`
and `c2` are distinct. -/
theorem connect_isolation (ctx ctx' : Context) (s : Store) (net net' : Outcome)
    (c1 c2 t t' : String) (h : c1 ≠ c2) :
    HasThing ctx' (Connect ctx s net c1 t).1 net' c2 t' = HasThing ctx' s net' c2 t' ∧
    (kv c1 t).1 ≠ (kv c2 t').1 := by
  have hk : (kv c2 t').1 ≠ (kv c1 t).1 := kv_key_ne t' t (Ne.symm h)
  refine ⟨?_, Ne.symm hk⟩
  rw [HasThing_eq, HasThing_eq, Connect_fst]
  cases hex : net.executed <;> simp [Store.sadd, hk]

theorem connect_isolation_witness :
    "chan-1" ≠ "chan-2" ∧
    HasThing Context.background
      (Connect Context.background Store.empty Outcome.ok "chan-1" "dev-A").1
      Outcome.ok "chan-2" "dev-A" =
    HasThing Context.background Store.empty Outcome.ok "chan-2" "dev-A" :=
  ⟨by decide, (connect_isolation _ _ _ _ _ "chan-1" "chan-2" "dev-A" "dev-A" (by decide)).1⟩

/-- C10: `Disconnect` removes exactly one edge: for every pair `(c', t')`
other than `(c, t)`, `HasThing c' t'` returns the same value after a
`Disconnect c t` that returned no error as before it. -/
theorem disconnect_frame (ctx ctx' : Context) (s : Store) (net net' : Outcome)
    (c t c' t' : String) (hne : (c', t') ≠ (c, t))
    (h : (Disconnect ctx s net c t).2 = none) :
    HasThing ctx' (Disconnect ctx s net c t).1 net' c' t' = HasThing ctx' s net' c' t' := by
  have hnet := Disconnect_ok_of_no_error h
  subst hnet
  rw [HasThing_eq, HasThing_eq, Disconnect_fst]
  simp only [Outcome.executed, if_true, kv_snd]
  by_cases hc : c' = c
  · subst hc
    have ht : t' ≠ t := fun ht => hne (by rw [ht])
    have hk : (kv c' t').1 = (kv c' t).1 := rfl
    simp [Store.srem, hk, ht]
  · have hk : (kv c' t').1 ≠ (kv c t).1 := kv_key_ne t' t hc
    simp [Store.srem, hk]

theorem disconnect_frame_witness :
    (HasThing Context.background
        (Disconnect Context.background storeAB Outcome.ok "chan-1" "dev-A").1
        Outcome.ok "chan-1" "dev-B" =
      HasThing Context.background storeAB Outcome.ok "chan-1" "dev-B") ∧
    HasThing Context.background storeAB Outcome.ok "chan-1" "dev-B" = true :=
  ⟨disconnect_frame _ _ storeAB _ _ "chan-1" "dev-A" "chan-1" "dev-B" (by decide) (by decide),
   by decide⟩

/-! ## Backend failures -/

/-- C6, as stated, fails: with `dev-A` a member of `chan-1` and the backend
unreachable, `HasThing` returns `false`, the very value it returns through a
reachable backend for a thing that is not a member; the `Err()` of the
membership test is not looked at. -/
theorem hasThing_degraded_counterexample :
    (SIsMember storeA (Outcome.refused errUnreachable) "channel:chan-1" "dev-A").err =
      some errUnreachable ∧
    HasThing Context.background storeA (Outcome.refused errUnreachable) "chan-1" "dev-A" =
      false ∧
    HasThing Context.background Store.empty Outcome.ok "chan-1" "dev-A" = false ∧
    HasThing Context.background storeA (Outcome.refused errUnreachable) "chan-1" "dev-A" =
      HasThing Context.background Store.empty Outcome.ok "chan-1" "dev-A" := by
  decide

/-- C6, amended: when the membership test of the backend fails, `HasThing`
returns `false`, whatever the store holds; its result is a plain boolean, the
same as for a thing that is not a member. -/
theorem hasThing_false_on_backend_error (ctx : Context) (s : Store) (net : Outcome)
    (c t : String) (h : (SIsMember s net (kv c t).1 (kv c t).2).err ≠ none) :
    HasThing ctx s net c t = false := by
  cases net with
  | ok => exact absurd rfl h
  | refused e => rfl
  | replyLost e => rfl

theorem hasThing_false_on_backend_error_witness :
    HasThing Context.background storeA (Outcome.replyLost errUnreachable) "chan-1" "dev-A" =
      false :=
  hasThing_false_on_backend_error _ storeA (Outcome.replyLost errUnreachable) "chan-1" "dev-A"
    (by decide)

/-- C7: each mutation returns an error exactly when its backend primitive
fails, and then the error wraps the error of the operation around the backend
error: `Connect` with `SAdd` and `ErrRedisConnectChannel`, `Disconnect` with
`SRem` and `ErrRedisDisconnectChannel`, `Remove` with `Del` and
`ErrRedisRemoveChannel`; the three operation errors differ. Through a
reachable backend, `Disconnect` of an absent member and `Remove` of a channel
without connections return nil. -/
theorem mutation_error_iff_primitive_fails (ctx : Context) (s : Store) (net : Outcome)
    (c t : String) :
    (((Connect ctx s net c t).2 = none ↔ (SAdd s net (kv c t).1 (kv c t).2).2.Err = none) ∧
      ∀ e, (SAdd s net (kv c t).1 (kv c t).2).2.Err = some e →
        (Connect ctx s net c t).2 = some (Error.Wrap ErrRedisConnectChannel e)) ∧
    (((Disconnect ctx s net c t).2 = none ↔
        (SRem s net (kv c t).1 (kv c t).2).2.Err = none) ∧
      ∀ e, (SRem s net (kv c t).1 (kv c t).2).2.Err = some e →
        (Disconnect ctx s net c t).2 = some (Error.Wrap ErrRedisDisconnectChannel e)) ∧
    (((Remove ctx s net c).2 = none ↔ (Del s net (kv c "0").1).2.Err = none) ∧
      ∀ e, (Del s net (kv c "0").1).2.Err = some e →
        (Remove ctx s net c).2 = some (Error.Wrap ErrRedisRemoveChannel e)) ∧
    (ErrRedisConnectChannel ≠ ErrRedisDisconnectChannel ∧
      ErrRedisConnectChannel ≠ ErrRedisRemoveChannel ∧
      ErrRedisDisconnectChannel ≠ ErrRedisRemoveChannel) ∧
    (t ∉ s (kv c t).1 →
      (SRem s Outcome.ok (kv c t).1 (kv c t).2).2.Err = none ∧
      (Disconnect ctx s Outcome.ok c t).2 = none) ∧
    (s (kv c "0").1 = ∅ →
      (Del s Outcome.ok (kv c "0").1).2.Err = none ∧
      (Remove ctx s Outcome.ok c).2 = none) := by
  refine ⟨?_, ?_, ?_, ⟨by decide, by decide, by decide⟩, fun _ => ⟨rfl, rfl⟩,
    fun _ => ⟨rfl, rfl⟩⟩
  · cases net <;>
      simp [Connect, SAdd, IntCmd.Err, Outcome.err]
  · cases net <;>
      simp [Disconnect, SRem, IntCmd.Err, Outcome.err]
  · cases net <;>
      simp [Remove, Del, IntCmd.Err, Outcome.err]

theorem mutation_error_iff_primitive_fails_witness :
    (Connect Context.background Store.empty (Outcome.refused errUnreachable)
        "chan-1" "dev-A").2 = some (Error.Wrap ErrRedisConnectChannel errUnreachable) ∧
    (Disconnect Context.background Store.empty Outcome.ok "chan-1" "dev-A").2 = none ∧
    (Remove Context.background Store.empty Outcome.ok "chan-1").2 = none :=
  ⟨(mutation_error_iff_primitive_fails Context.background Store.empty
      (Outcome.refused errUnreachable) "chan-1" "dev-A").1.2 errUnreachable rfl,
   ((mutation_error_iff_primitive_fails Context.background Store.empty Outcome.ok
      "chan-1" "dev-A").2.2.2.2.1 (by decide)).2,
   ((mutation_error_iff_primitive_fails Context.background Store.empty Outcome.ok
      "chan-1" "dev-A").2.2.2.2.2 (by decide)).2⟩

/-! ## Contexts -/

/-- C8, as stated, fails: with a canceled context and a reachable backend,
`Connect` returns nil and adds the member, and `HasThing` for an absent member
returns the same `false` as the plain lookup with a live context. -/
theorem canceled_context_counterexample :
    (Connect Context.canceled Store.empty Outcome.ok "chan-1" "dev-A").2 = none ∧
    HasThing Context.canceled
      (Connect Context.canceled Store.empty Outcome.ok "chan-1" "dev-A").1
      Outcome.ok "chan-1" "dev-A" = true ∧
    HasThing Context.canceled Store.empty Outcome.ok "chan-1" "dev-B" = false ∧
    HasThing Context.canceled Store.empty Outcome.ok "chan-1" "dev-B" =
      HasThing Context.background Store.empty Outcome.ok "chan-1" "dev-B" ∧
    (Disconnect Context.deadlineExceeded storeA Outcome.ok "chan-1" "dev-A").2 = none ∧
    (Remove Context.deadlineExceeded storeA Outcome.ok "chan-1").2 = none := by
  decide

/-- C8, amended: every operation accepts a context and does not use it: the
returned value and the resulting store of `Connect`, `HasThing`, `Disconnect`
and `Remove` are the same for every two contexts, canceled or not, so an error
comes only from the failure of the backend primitive. -/
theorem context_ignored (ctx ctx' : Context) (s : Store) (net : Outcome) (c t : String) :
    Connect ctx s net c t = Connect ctx' s net c t ∧
    HasThing ctx s net c t = HasThing ctx' s net c t ∧
    Disconnect ctx s net c t = Disconnect ctx' s net c t ∧
    Remove ctx s net c = Remove ctx' s net c ∧
    (Connect ctx s Outcome.ok c t).2 = none ∧
    (Disconnect ctx s Outcome.ok c t).2 = none ∧
    (Remove ctx s Outcome.ok c).2 = none :=
  ⟨rfl, rfl, rfl, rfl, rfl, rfl, rfl⟩

/-! ## The derived key -/

/-- C9: `kv chanID thingID = ("channel:" ++ chanID, thingID)` for all strings,
the empty string included; the thing ID is passed through, the key starts with
the prefix `"channel:"`, and the key determines the channel ID. -/
theorem kv_spec (chanID thingID : String) :
    kv chanID thingID = ("channel:" ++ chanID, thingID) ∧
    (kv chanID thingID).2 = thingID ∧
    "channel:".data <+: (kv chanID thingID).1.data ∧
    (∀ c2 t2 : String, (kv chanID thingID).1 = (kv c2 t2).1 → chanID = c2) ∧
    kv "" "" = ("channel:", "") ∧
    kv chanID "" = ("channel:" ++ chanID, "") ∧
    kv "" thingID = ("channel:", thingID) := by
  have h1 : kv chanID thingID = ("channel:" ++ chanID, thingID) :=
    Prod.ext (kv_fst chanID thingID) rfl
  refine ⟨h1, rfl, ?_, fun c2 t2 h => kv_key_inj h, by decide, ?_, ?_⟩
  · rw [kv_fst, String.data_append]
    exact List.prefix_append _ _
  · exact Prod.ext (kv_fst chanID "") rfl
  · refine Prod.ext ?_ rfl
    rw [kv_fst]
    apply String.ext
    simp

end Redis
